import Mathlib

/-!
Shallow embedding of the USDC wallet backend (Node/Express + PostgreSQL)
for checking its natural-language specification.

Embedded source files:
* `src/services/blockchain.js` — `encryptPrivateKey` / `decryptPrivateKey`
* `src/services/walletService.js` — `createWallet`, `sendUSDC`,
  `setPrimaryWallet`, `updateWalletBalance`, and the backup service's
  `encryptBackup` / `decryptBackup`
* `src/services/webhookService.js` — `sendWebhook` / `deliverWebhook` /
  `logWebhookDelivery`
* `src/routes/transactions.js` — the `GET /:txHash` reconciliation handler
* the white-label middleware — `checkTransactionLimits`
* `scripts/001_create_database_schema.sql` — table shapes and constraints

Database rows are Lean structures, tables are lists, SQL statements are
pure functions on the table lists.  Outbound I/O (chain RPC, webhook HTTP,
randomness) is passed in explicitly as data.  Monetary amounts are `ℚ`
(the JS code manipulates them as decimal numbers; every figure in the
claims is exactly representable).
-/

namespace UsdcWallet

/-! ## Data model (schema `001_create_database_schema.sql`) -/

/-- Column `wallets.status`: `CHECK (status IN ('active','frozen','deleted'))`. -/
inductive WalletStatus
  | active
  | frozen
  | deleted
deriving DecidableEq, Repr

/-- Column `transactions.status`: `CHECK (status IN ('pending','confirmed','failed'))`. -/
inductive TxStatus
  | pending
  | confirmed
  | failed
deriving DecidableEq, Repr

/-- Column `transactions.transaction_type`: `CHECK (transaction_type IN ('send','receive'))`. -/
inductive TxType
  | send
  | receive
deriving DecidableEq, Repr

/-- A row of the `wallets` table (the columns the embedded code reads). -/
structure Wallet where
  id : Nat
  userId : Nat
  clientId : Option Nat
  name : String
  address : String
  encryptedPrivateKey : String
  isPrimary : Bool
  balanceUsdc : ℚ
  status : WalletStatus
deriving DecidableEq, Repr

/-- A row of the `transactions` table (the columns the embedded code reads). -/
structure Transaction where
  walletId : Nat
  txHash : String
  fromAddress : String
  toAddress : String
  amount : ℚ
  txType : TxType
  status : TxStatus
  confirmations : Nat
  memo : Option String
  createdAt : Nat
  confirmedAt : Option Nat
deriving DecidableEq, Repr

/-- The persisted state the embedded operations touch. -/
structure DB where
  wallets : List Wallet
  transactions : List Transaction
deriving DecidableEq, Repr

/-! ## Ideal-cipher model for `crypto.createCipher` / `crypto.createDecipher`

Both `encryptPrivateKey`/`decryptPrivateKey` (blockchain service) and
`encryptBackup`/`decryptBackup` (backup service) call Node's legacy
`crypto.createCipher(alg, password)` API, which derives the actual cipher
key from the password argument alone and takes no IV.  We model that API
as an abstract deterministic authenticated cipher keyed by a string:
decryption keyed by the encrypting password inverts, decryption keyed by
any other password fails (GCM auth-tag check). -/
structure CipherModel (Ct Tag : Type) where
  encrypt : String → String → Ct × Tag
  decrypt : String → Ct → Tag → Option String
  decrypt_encrypt : ∀ k p, decrypt k (encrypt k p).1 (encrypt k p).2 = some p
  decrypt_wrong : ∀ k k' p, k ≠ k' → decrypt k' (encrypt k p).1 (encrypt k p).2 = none

/-- A concrete instance of the ideal cipher (ciphertext = tagged pair),
used to evaluate the parametric theorems on closed inputs. -/
def tagCipher : CipherModel (String × String) Unit where
  encrypt k p := ((k, p), ())
  decrypt k c _ := if c.1 = k then some c.2 else none
  decrypt_encrypt := by intro k p; simp
  decrypt_wrong := by intro k k' p h; simp [h]

/-! ## `BlockchainService.encryptPrivateKey` / `decryptPrivateKey`

```js
encryptPrivateKey(privateKey) {
  const iv = crypto.randomBytes(16)
  const cipher = crypto.createCipher("aes-256-gcm", this.encryptionKey)
  let encrypted = cipher.update(privateKey, "utf8", "hex")
  encrypted += cipher.final("hex")
  const authTag = cipher.getAuthTag()
  return { encrypted, iv: iv.toString("hex"), authTag: authTag.toString("hex") }
}
decryptPrivateKey(encryptedData) {
  const decipher = crypto.createDecipher("aes-256-gcm", this.encryptionKey)
  decipher.setAuthTag(Buffer.from(encryptedData.authTag, "hex"))
  let decrypted = decipher.update(encryptedData.encrypted, "hex", "utf8")
  decrypted += decipher.final("utf8")
  return decrypted
}
```
The random 16 bytes are an explicit argument `ivRandom`; note the cipher
is built from `encryptionKey` alone, the drawn bytes only populate the
returned `iv` field, and decryption never reads that field. -/

structure EncryptedKeyData (Ct Tag : Type) where
  encrypted : Ct
  iv : String
  authTag : Tag
deriving DecidableEq, Repr

def encryptPrivateKey {Ct Tag : Type} (C : CipherModel Ct Tag)
    (encryptionKey privateKey ivRandom : String) : EncryptedKeyData Ct Tag :=
  let r := C.encrypt encryptionKey privateKey
  { encrypted := r.1, iv := ivRandom, authTag := r.2 }

def decryptPrivateKey {Ct Tag : Type} (C : CipherModel Ct Tag)
    (encryptionKey : String) (d : EncryptedKeyData Ct Tag) : Option String :=
  C.decrypt encryptionKey d.encrypted d.authTag

/-! ## `BackupService.encryptBackup` / `decryptBackup`

```js
encryptBackup(data, password) {
  const salt = crypto.randomBytes(16)
  const key = crypto.pbkdf2Sync(password, salt, 100000, 32, "sha256")
  const iv = crypto.randomBytes(16)
  const cipher = crypto.createCipher("aes-256-gcm", key)
  ... encrypted, authTag ...
  return { encrypted, salt: salt.toString("hex"), iv: iv.toString("hex"), authTag }
}
decryptBackup(encryptedData, password) {
  const salt = Buffer.from(encryptedData.salt, "hex")
  const key = crypto.pbkdf2Sync(password, salt, 100000, 32, "sha256")
  const decipher = crypto.createDecipher("aes-256-gcm", key)
  decipher.setAuthTag(...)
  ... return decrypted  // throws on auth failure
}
```
`kdf` models `pbkdf2Sync` as an abstract function of (password, salt);
the two random draws (salt, iv) are explicit arguments. -/

structure BackupBlob (Ct Tag : Type) where
  encrypted : Ct
  salt : String
  iv : String
  authTag : Tag
deriving DecidableEq, Repr

def encryptBackup {Ct Tag : Type} (C : CipherModel Ct Tag)
    (kdf : String → String → String) (data password saltRandom ivRandom : String) :
    BackupBlob Ct Tag :=
  let key := kdf password saltRandom
  let r := C.encrypt key data
  { encrypted := r.1, salt := saltRandom, iv := ivRandom, authTag := r.2 }

def decryptBackup {Ct Tag : Type} (C : CipherModel Ct Tag)
    (kdf : String → String → String) (blob : BackupBlob Ct Tag) (password : String) :
    Option String :=
  let key := kdf password blob.salt
  C.decrypt key blob.encrypted blob.authTag

/-! ## `WebhookService.sendWebhook` / `deliverWebhook` / `logWebhookDelivery`

`sendWebhook` selects the active webhooks of the client subscribed to the
event and runs `deliverWebhook` on each in order.  `deliverWebhook` does
the HTTP POST inside its own try/catch: on success it logs a `success`
row with the response status, on any failure it logs a `failed` row with
`error.response?.status || 0` and the message — it never rethrows, so the
loop in `sendWebhook` always continues.  The HTTP outcome of each POST is
supplied by the oracle `outcome`. -/

structure Webhook where
  id : Nat
  clientId : Nat
  url : String
  events : List String
  secret : String
  active : Bool
deriving DecidableEq, Repr

structure WebhookLog where
  webhookId : Nat
  event : String
  status : String
  statusCode : Nat
  errorMessage : Option String
deriving DecidableEq, Repr

/-- Outcome of one `axios.post` to a webhook URL. -/
inductive DeliveryOutcome
  | success (httpStatus : Nat)
  | failure (httpStatus : Option Nat) (message : String)
deriving DecidableEq, Repr

/-- The `webhook_logs` row written by one `deliverWebhook` call. -/
def deliverWebhook (w : Webhook) (event : String) (out : DeliveryOutcome) : WebhookLog :=
  match out with
  | .success code => { webhookId := w.id, event := event, status := "success",
                       statusCode := code, errorMessage := none }
  | .failure code msg => { webhookId := w.id, event := event, status := "failed",
                           statusCode := code.getD 0, errorMessage := some msg }

/-- The `SELECT * FROM webhooks WHERE client_id = $1 AND status = 'active'
AND events::jsonb ? $2` query. -/
def matchingWebhooks (hooks : List Webhook) (clientId : Nat) (event : String) :
    List Webhook :=
  hooks.filter (fun w => w.clientId == clientId && w.active && w.events.contains event)

/-- The `for (const webhook of webhooks.rows) await this.deliverWebhook(...)`
loop, threading the `webhook_logs` table.  `deliverWebhook` swallows its
own errors, so each iteration unconditionally appends one log row. -/
def webhookLoop (ws : List Webhook) (event : String)
    (outcome : Webhook → DeliveryOutcome) (logs : List WebhookLog) : List WebhookLog :=
  match ws with
  | [] => logs
  | w :: rest => webhookLoop rest event outcome (logs ++ [deliverWebhook w event (outcome w)])

def sendWebhook (hooks : List Webhook) (logs : List WebhookLog)
    (clientId : Nat) (event : String) (outcome : Webhook → DeliveryOutcome) :
    List WebhookLog :=
  webhookLoop (matchingWebhooks hooks clientId event) event outcome logs

lemma webhookLoop_eq_append (ws : List Webhook) (event : String)
    (outcome : Webhook → DeliveryOutcome) (logs : List WebhookLog) :
    webhookLoop ws event outcome logs
      = logs ++ ws.map (fun w => deliverWebhook w event (outcome w)) := by
  induction ws generalizing logs with
  | nil => simp [webhookLoop]
  | cons w rest ih => simp [webhookLoop, ih]

/-! ## `GET /transactions/:txHash` (routes/transactions.js)

After ownership lookup the handler fetches the chain view and runs

```js
if (blockchainTx.status !== txResult.rows[0].status) {
  await query(`UPDATE transactions
               SET status = $1, confirmations = $2, confirmed_at = $3
               WHERE transaction_hash = $4`,
    [blockchainTx.status, blockchainTx.confirmations,
     blockchainTx.status === "confirmed" ? new Date() : null, txHash])
}
```
-/

/-- What `blockchainService.getTransaction` reports for a hash. -/
structure ChainTx where
  status : TxStatus
  confirmations : Nat
deriving DecidableEq, Repr

/-- Query `SELECT t.*, w.user_id FROM transactions t JOIN wallets w ON
t.wallet_id = w.id WHERE t.transaction_hash = $1 AND w.user_id = $2`. -/
def findUserTx (db : DB) (txHash : String) (userId : Nat) : Option Transaction :=
  db.transactions.find? (fun t => t.txHash == txHash &&
    db.wallets.any (fun w => w.id == t.walletId && w.userId == userId))

/-- Response of the handler, omitting fields no claim mentions. -/
inductive TxHashResponse
  | notFound
  | ok (chain : ChainTx) (memo : Option String) (txType : TxType)
deriving DecidableEq, Repr

/-- The reconciliation core of the `GET /:txHash` handler: look the row up
under the caller's ownership, then overwrite status/confirmations whenever
the chain-reported status differs from the stored one. -/
def getTransactionHandler (db : DB) (txHash : String) (userId : Nat)
    (chainTx : ChainTx) (now : Nat) : DB × TxHashResponse :=
  match findUserTx db txHash userId with
  | none => (db, .notFound)
  | some row =>
    let db' :=
      if chainTx.status ≠ row.status then
        { db with transactions := db.transactions.map (fun t =>
            if t.txHash == txHash then
              { t with status := chainTx.status,
                       confirmations := chainTx.confirmations,
                       confirmedAt := if chainTx.status = .confirmed then some now else none }
            else t) }
      else db
    (db', .ok chainTx row.memo row.txType)

/-! ## `WalletService.sendUSDC` (walletService.js)

Order of checks in the source: recipient address format, wallet lookup
(`id = $1 AND user_id = $2 AND status = 'active'`), cached-balance check
(`currentBalance < parseFloat(amount)` throws), ETH-for-gas check
(`< 0.001` throws), then `blockchainService.sendUSDC` (the only chain
mutation), then the `INSERT INTO transactions ... status 'pending'`. -/

inductive SendError
  | invalidAddress
  | walletNotFound
  | insufficientUSDC
  | insufficientGas
  | chainFailure
deriving DecidableEq, Repr

/-- Return value of `blockchainService.sendUSDC` (fields the caller uses). -/
structure ChainSendResult where
  transactionHash : String
  gasUsed : Nat
  gasPrice : Nat
deriving DecidableEq, Repr

structure SendResult where
  transactionHash : String
  fromAddress : String
  toAddress : String
  amount : ℚ
deriving DecidableEq, Repr

/-- Post-state of one `sendUSDC` call: the database afterwards, whether
the chain transfer was submitted, and what the caller got back. -/
structure SendOutcome where
  db : DB
  chainCalled : Bool
  result : Except SendError SendResult
deriving Repr

/-- The `// Minimum ETH for gas` threshold `0.001` in the source. -/
def gasMinimumEth : ℚ := 1 / 1000

def sendUSDC (db : DB) (walletId userId : Nat) (toAddress : String) (amount : ℚ)
    (memo : Option String) (isValidAddress : String → Bool)
    (ethBalance : String → ℚ) (chainSend : Except String ChainSendResult)
    (nowCreatedAt : Nat) : SendOutcome :=
  if !isValidAddress toAddress then
    ⟨db, false, .error .invalidAddress⟩
  else
    match db.wallets.find? (fun w =>
        w.id == walletId && w.userId == userId && w.status == .active) with
    | none => ⟨db, false, .error .walletNotFound⟩
    | some w =>
      if w.balanceUsdc < amount then
        ⟨db, false, .error .insufficientUSDC⟩
      else if ethBalance w.address < gasMinimumEth then
        ⟨db, false, .error .insufficientGas⟩
      else
        match chainSend with
        | .error _ => ⟨db, true, .error .chainFailure⟩
        | .ok tx =>
          let newTx : Transaction :=
            { walletId := walletId, txHash := tx.transactionHash,
              fromAddress := w.address, toAddress := toAddress, amount := amount,
              txType := .send, status := .pending, confirmations := 0,
              memo := memo, createdAt := nowCreatedAt, confirmedAt := none }
          ⟨{ db with transactions := db.transactions ++ [newTx] }, true,
            .ok { transactionHash := tx.transactionHash, fromAddress := w.address,
                  toAddress := toAddress, amount := amount }⟩

/-! ## `WalletService.setPrimaryWallet` (walletService.js)

```js
// Verify wallet ownership
const walletResult = await query("SELECT id FROM wallets WHERE id = $1 AND user_id = $2", ...)
if (walletResult.rows.length === 0) throw ...
// Remove primary flag from all user's wallets
await query("UPDATE wallets SET is_primary = false WHERE user_id = $1", [userId])
// Set new primary wallet
await query("UPDATE wallets SET is_primary = true WHERE id = $1", [walletId])
```
Two separate statements with no surrounding transaction: the state after
the first UPDATE commits is observable.  `setPrimaryStates` is the step
relation's trace: every database state an interleaved reader can see. -/

/-- Statement `UPDATE wallets SET is_primary = false WHERE user_id = $1`. -/
def clearPrimaries (db : DB) (userId : Nat) : DB :=
  { db with wallets := db.wallets.map (fun w =>
      if w.userId == userId then { w with isPrimary := false } else w) }

/-- Statement `UPDATE wallets SET is_primary = true WHERE id = $1`. -/
def setPrimaryFlag (db : DB) (walletId : Nat) : DB :=
  { db with wallets := db.wallets.map (fun w =>
      if w.id == walletId then { w with isPrimary := true } else w) }

/-- Every database state observable during one `setPrimaryWallet` call:
initial, after the clear-all statement, after the set-target statement.
When the ownership check fails the call throws before either UPDATE. -/
def setPrimaryStates (db : DB) (walletId userId : Nat) : List DB :=
  if db.wallets.any (fun w => w.id == walletId && w.userId == userId) then
    let db1 := clearPrimaries db userId
    let db2 := setPrimaryFlag db1 walletId
    [db, db1, db2]
  else
    [db]

/-- Number of wallets of `userId` carrying the primary flag. -/
def countPrimaries (db : DB) (userId : Nat) : Nat :=
  (db.wallets.filter (fun w => w.userId == userId && w.isPrimary)).length

/-! ## `WalletService.createWallet` (walletService.js)

```js
const existingWallet = await query(
  "SELECT id FROM wallets WHERE user_id = $1 AND wallet_name = $2", ...)
if (existingWallet.rows.length > 0) throw new Error("Wallet with this name already exists")
const walletData = blockchainService.generateWallet()
const userWallets = await query("SELECT COUNT(*) as count FROM wallets WHERE user_id = $1", ...)
const isPrimary = userWallets.rows[0].count === "0"
... INSERT INTO wallets (...) VALUES (...) ...
const balance = await this.updateWalletBalance(wallet.id)
```
Neither the duplicate check nor the count filters on `status`.  The key
pair from `generateWallet` and the fresh row id are explicit arguments;
`chainBalance` is what `getUSDCBalance` reports during the initial
`updateWalletBalance`. -/

structure GeneratedWallet where
  address : String
  encryptedPrivateKey : String
deriving DecidableEq, Repr

inductive CreateError
  | duplicateName
deriving DecidableEq, Repr

/-- Statement `UPDATE wallets SET balance_usdc = $1 ... WHERE id = $2` after the
`getUSDCBalance` call in `updateWalletBalance`. -/
def updateWalletBalance (db : DB) (walletId : Nat) (chainBalance : ℚ) : DB :=
  { db with wallets := db.wallets.map (fun w =>
      if w.id == walletId then { w with balanceUsdc := chainBalance } else w) }

structure CreateOutcome where
  db : DB
  result : Except CreateError Wallet
deriving Repr

def createWallet (db : DB) (userId : Nat) (walletName : String)
    (clientId : Option Nat) (gen : GeneratedWallet) (newId : Nat)
    (chainBalance : ℚ) : CreateOutcome :=
  if db.wallets.any (fun w => w.userId == userId && w.name == walletName) then
    ⟨db, .error .duplicateName⟩
  else
    let isPrimary := (db.wallets.filter (fun w => w.userId == userId)).length == 0
    let newW : Wallet :=
      { id := newId, userId := userId, clientId := clientId, name := walletName,
        address := gen.address, encryptedPrivateKey := gen.encryptedPrivateKey,
        isPrimary := isPrimary, balanceUsdc := 0, status := .active }
    let db1 : DB := { db with wallets := db.wallets ++ [newW] }
    let db2 := updateWalletBalance db1 newId chainBalance
    ⟨db2, .ok newW⟩

/-! ## `checkTransactionLimits` middleware (white-label middleware)

```js
const clientConfig = req.whitelabelClient
const userId = req.user?.id
if (!clientConfig || !userId) return next()
const { amount } = req.body
const featuresConfig = clientConfig.featuresConfig
if (!featuresConfig) return next()
const dailyLimit = featuresConfig.dailyTransactionLimit || 10000
const monthlyLimit = featuresConfig.monthlyTransactionLimit || 100000
... SUM over non-failed transactions of (user, client) for today ...
if (dailyTotal + parseFloat(amount) > dailyLimit) return res.status(400).json({...})
... same for the current month ...
next()
} catch (error) { next() }  // Continue without limit check
```
Day/month window boundaries are explicit timestamp arguments; each of the
two SQL queries can independently fail (`dailyFailure`/`monthlyFailure`),
in which case the surrounding catch falls through to `next()`. -/

structure FeaturesConfig where
  features : List String
  dailyTransactionLimit : Option ℚ
  monthlyTransactionLimit : Option ℚ
deriving DecidableEq, Repr

structure ClientConfig where
  id : Nat
  featuresConfig : Option FeaturesConfig
deriving DecidableEq, Repr

/-- JavaScript `x || d` on a numeric config field: `null`/absent and `0`
are both falsy. -/
def jsOrDefault (x : Option ℚ) (d : ℚ) : ℚ :=
  match x with
  | none => d
  | some v => if v = 0 then d else v

/-- Query `SELECT COALESCE(SUM(t.amount), 0) FROM transactions t JOIN wallets w
ON t.wallet_id = w.id WHERE w.user_id = $1 AND w.white_label_client_id = $2
AND t.created_at >= $3 AND t.created_at < $4 AND t.status != 'failed'`. -/
def limitQuerySum (db : DB) (userId clientId : Nat) (lo hi : Nat) : ℚ :=
  ((db.transactions.filter (fun t =>
      db.wallets.any (fun w =>
        w.id == t.walletId && w.userId == userId && w.clientId == some clientId)
      && lo ≤ t.createdAt && t.createdAt < hi
      && t.status != .failed)).map (fun t => t.amount)).sum

/-- What the middleware does with the request. -/
inductive LimitOutcome
  | proceed
  | rejectedDaily (limit used remaining : ℚ)
  | rejectedMonthly (limit used remaining : ℚ)
deriving DecidableEq, Repr

def checkTransactionLimits (db : DB) (client : Option ClientConfig)
    (userId : Option Nat) (amount : ℚ) (todayStart tomorrowStart : Nat)
    (monthStart monthEnd : Nat) (dailyFailure monthlyFailure : Option String) :
    LimitOutcome :=
  match client, userId with
  | some c, some u =>
    match c.featuresConfig with
    | none => .proceed
    | some cfg =>
      let dailyLimit := jsOrDefault cfg.dailyTransactionLimit 10000
      let monthlyLimit := jsOrDefault cfg.monthlyTransactionLimit 100000
      match dailyFailure with
      | some _ => .proceed
      | none =>
        let dailyTotal := limitQuerySum db u c.id todayStart tomorrowStart
        if dailyLimit < dailyTotal + amount then
          .rejectedDaily dailyLimit dailyTotal (dailyLimit - dailyTotal)
        else
          match monthlyFailure with
          | some _ => .proceed
          | none =>
            let monthlyTotal := limitQuerySum db u c.id monthStart monthEnd
            if monthlyLimit < monthlyTotal + amount then
              .rejectedMonthly monthlyLimit monthlyTotal (monthlyLimit - monthlyTotal)
            else .proceed
  | _, _ => .proceed

/-! ## Concrete fixtures used by counterexamples and witnesses -/

def exW1 : Wallet := ⟨1, 1, none, "Main", "0xa", "k1", true, 100, .active⟩
def exW2 : Wallet := ⟨2, 1, none, "Savings", "0xb", "k2", false, 50, .active⟩
def exTx : Transaction := ⟨1, "0xh", "0xa", "0xc", 10, .send, .confirmed, 3, none, 5, some 6⟩
def exDb : DB := ⟨[exW1, exW2], [exTx]⟩

def limitWallet : Wallet := ⟨1, 1, some 7, "Main", "0xa", "k", true, 100, .active⟩
def limitTx : Transaction := ⟨1, "0xh1", "0xa", "0xc", 80, .send, .confirmed, 3, none, 5, some 6⟩
def limitDb : DB := ⟨[limitWallet], [limitTx]⟩
def limitCfg : FeaturesConfig := ⟨["transfers"], some 100, some 100000⟩
def limitClient : ClientConfig := ⟨7, some limitCfg⟩

/-- The daily-window limit query evaluated on the fixture: one non-failed
transaction of 80 for (user 1, client 7) inside the window. -/
lemma limitSum_eval : limitQuerySum limitDb 1 limitClient.id 0 86400 = 80 := by
  norm_num [limitQuerySum, limitDb, limitClient, limitCfg, limitWallet, limitTx,
    List.filter_cons]
  rw [if_neg (by decide)]
  norm_num

/-- The fixture tenant's effective daily ceiling. -/
lemma limitDaily_eval : jsOrDefault limitCfg.dailyTransactionLimit 10000 = 100 := by
  norm_num [jsOrDefault, limitCfg]

/-! ## Claim theorems -/

/-- C5: private-key encryption ignores its own recorded IV.  For every
ideal-cipher instance, process secret, private key, drawn IV bytes and
replacement value: decrypting the encryption result with its `iv` field
replaced by an arbitrary value still yields the private key, and two
encryptions of the same key under the same secret agree on the
`encrypted` and `authTag` fields (only the unused `iv` differs). -/
theorem C5_ivIgnored {Ct Tag : Type} (C : CipherModel Ct Tag)
    (encryptionKey p iv1 iv2 v : String) :
    decryptPrivateKey C encryptionKey
        { encryptPrivateKey C encryptionKey p iv1 with iv := v } = some p
    ∧ (encryptPrivateKey C encryptionKey p iv1).encrypted
        = (encryptPrivateKey C encryptionKey p iv2).encrypted
    ∧ (encryptPrivateKey C encryptionKey p iv1).authTag
        = (encryptPrivateKey C encryptionKey p iv2).authTag := by
  refine ⟨?_, rfl, rfl⟩
  simpa [decryptPrivateKey, encryptPrivateKey] using C.decrypt_encrypt encryptionKey p

/-- C5 witness: the theorem evaluated on the concrete tagged-pair cipher. -/
theorem C5_witness :
    decryptPrivateKey tagCipher "secret"
        { encryptPrivateKey tagCipher "secret" "privkey" "aaaa" with iv := "zzzz" }
      = some "privkey"
    ∧ (encryptPrivateKey tagCipher "secret" "privkey" "aaaa").encrypted
        = (encryptPrivateKey tagCipher "secret" "privkey" "bbbb").encrypted
    ∧ (encryptPrivateKey tagCipher "secret" "privkey" "aaaa").authTag
        = (encryptPrivateKey tagCipher "secret" "privkey" "bbbb").authTag :=
  C5_ivIgnored tagCipher "secret" "privkey" "aaaa" "bbbb" "zzzz"

/-- C6: backup round-trip.  Decrypting an encrypted backup with the
password that produced it returns the original data, and decrypting with
any other password fails (the PBKDF2-derived keys differ, so the
authenticated cipher rejects), for every data string, password pair and
random salt/IV draw. -/
theorem C6_backupRoundTrip {Ct Tag : Type} (C : CipherModel Ct Tag)
    (kdf : String → String → String)
    (hkdf : ∀ salt pw pw', pw ≠ pw' → kdf pw salt ≠ kdf pw' salt)
    (data password wrongPassword saltR ivR : String)
    (hw : wrongPassword ≠ password) :
    decryptBackup C kdf (encryptBackup C kdf data password saltR ivR) password = some data
    ∧ decryptBackup C kdf (encryptBackup C kdf data password saltR ivR) wrongPassword
        = none := by
  constructor
  · simpa [decryptBackup, encryptBackup] using C.decrypt_encrypt (kdf password saltR) data
  · have hk : kdf password saltR ≠ kdf wrongPassword saltR :=
      hkdf saltR password wrongPassword (Ne.symm hw)
    simpa [decryptBackup, encryptBackup] using
      C.decrypt_wrong (kdf password saltR) (kdf wrongPassword saltR) data hk

/-- C6 witness: the round-trip theorem evaluated on the tagged-pair cipher
with an injective key-derivation instance and a concrete wrong password. -/
theorem C6_witness :
    decryptBackup tagCipher (fun pw _ => pw)
        (encryptBackup tagCipher (fun pw _ => pw) "data" "pw" "salt" "iv") "pw"
      = some "data"
    ∧ decryptBackup tagCipher (fun pw _ => pw)
        (encryptBackup tagCipher (fun pw _ => pw) "data" "pw" "salt" "iv") "other"
      = none :=
  C6_backupRoundTrip tagCipher (fun pw _ => pw) (fun _ _ _ h => h)
    "data" "pw" "other" "salt" "iv" (by decide)

/-- C9: webhook fan-out isolation.  For every webhook table, log table,
client, event and HTTP-outcome oracle, `sendWebhook` appends exactly one
log row per matching active registration — the row produced by that
registration's own delivery attempt — so a failure of any delivery
neither skips later deliveries nor suppresses any log row, and every
attempt is logged with its outcome and status code. -/
theorem C9_webhookFanout (hooks : List Webhook) (logs : List WebhookLog)
    (clientId : Nat) (event : String) (outcome : Webhook → DeliveryOutcome) :
    sendWebhook hooks logs clientId event outcome
      = logs ++ (matchingWebhooks hooks clientId event).map
          (fun w => deliverWebhook w event (outcome w))
    ∧ (sendWebhook hooks logs clientId event outcome).length
      = logs.length + (matchingWebhooks hooks clientId event).length := by
  have h := webhookLoop_eq_append (matchingWebhooks hooks clientId event) event outcome logs
  refine ⟨by simpa [sendWebhook] using h, ?_⟩
  simp [sendWebhook, h]

/-- C9 witness: fan-out over two matching webhooks of which the first
delivery fails; both log rows are still written. -/
theorem C9_witness :
    sendWebhook
        [⟨1, 7, "https://a", ["tx.sent"], "s1", true⟩,
         ⟨2, 7, "https://b", ["tx.sent"], "s2", true⟩] [] 7 "tx.sent"
        (fun w => if w.id == 1 then .failure none "timeout" else .success 200)
      = [⟨1, "tx.sent", "failed", 0, some "timeout"⟩,
         ⟨2, "tx.sent", "success", 200, none⟩] := by
  have h := (C9_webhookFanout
      [⟨1, 7, "https://a", ["tx.sent"], "s1", true⟩,
       ⟨2, 7, "https://b", ["tx.sent"], "s2", true⟩] [] 7 "tx.sent"
      (fun w => if w.id == 1 then .failure none "timeout" else .success 200)).1
  rw [h]; rfl

/-- C10: transaction-limit checking fails open.  When the resolved tenant
and user are present and a limit query raises an error — either the daily
query, or the monthly query after the daily check passed — the catch
branch falls through to `next()` and the middleware lets the request
proceed with no limit enforcement. -/
theorem C10_failOpen (db : DB) (c : ClientConfig) (u : Nat) (amount : ℚ)
    (t1 t2 m1 m2 : Nat) (e1 e2 : String) (monthlyFailure : Option String)
    (cfg : FeaturesConfig) (hcfg : c.featuresConfig = some cfg) :
    checkTransactionLimits db (some c) (some u) amount t1 t2 m1 m2 (some e1) monthlyFailure
      = .proceed
    ∧ (limitQuerySum db u c.id t1 t2 + amount ≤ jsOrDefault cfg.dailyTransactionLimit 10000 →
       checkTransactionLimits db (some c) (some u) amount t1 t2 m1 m2 none (some e2)
         = .proceed) := by
  constructor
  · simp [checkTransactionLimits, hcfg]
  · intro h
    simp [checkTransactionLimits, hcfg, not_lt.mpr h]

/-- C10 witness: a failing daily query (and a failing monthly query under
an in-limit amount) both let a concrete request proceed. -/
theorem C10_witness :
    checkTransactionLimits limitDb (some limitClient) (some 1) 30 0 86400 0 2678400
        (some "db down") none = .proceed
    ∧ checkTransactionLimits limitDb (some limitClient) (some 1) 5 0 86400 0 2678400
        none (some "db down") = .proceed := by
  constructor
  · exact (C10_failOpen limitDb limitClient 1 30 0 86400 0 2678400 "db down" "x" none
      limitCfg rfl).1
  · exact (C10_failOpen limitDb limitClient 1 5 0 86400 0 2678400 "x" "db down" none
      limitCfg rfl).2 (by rw [limitSum_eval, limitDaily_eval]; norm_num)

/-- C2: insufficient funds.  For every wallet the balance check can see
(valid recipient address, wallet found active and owned by the caller)
and every amount exceeding the wallet's cached balance, `sendUSDC`
returns the insufficient-USDC error, does not submit a chain transfer,
and leaves the database — in particular the transactions table —
unchanged. -/
theorem C2_insufficientFunds (db : DB) (walletId userId : Nat) (toAddress : String)
    (amount : ℚ) (memo : Option String) (isValidAddress : String → Bool)
    (ethBalance : String → ℚ) (chainSend : Except String ChainSendResult)
    (now : Nat) (w : Wallet)
    (hvalid : isValidAddress toAddress = true)
    (hfind : db.wallets.find? (fun w =>
        w.id == walletId && w.userId == userId && w.status == .active) = some w)
    (hamt : w.balanceUsdc < amount) :
    sendUSDC db walletId userId toAddress amount memo isValidAddress ethBalance
        chainSend now
      = ⟨db, false, .error .insufficientUSDC⟩ := by
  simp [sendUSDC, hvalid, hfind, hamt]

/-- C2 witness: sending 150 from a wallet whose cached balance is 100
fails with the insufficient-USDC error and leaves the database as it was. -/
theorem C2_witness :
    sendUSDC exDb 1 1 "0xc" 150 none (fun _ => true) (fun _ => 1)
        (.ok ⟨"0xnew", 21000, 3⟩) 7
      = ⟨exDb, false, .error .insufficientUSDC⟩ :=
  C2_insufficientFunds exDb 1 1 "0xc" 150 none (fun _ => true) (fun _ => 1)
    (.ok ⟨"0xnew", 21000, 3⟩) 7 exW1 rfl (by decide) (by norm_num [exW1])

/-- C4: tenant transaction-limit gating.  Under a resolved tenant with a
features config, if the user's non-failed transaction total for the
current day plus the prospective amount exceeds the daily ceiling the
request is rejected carrying the limit, the used total and the remaining
headroom; likewise for the monthly ceiling when the daily check passes. -/
theorem C4_limitRejection (db : DB) (c : ClientConfig) (u : Nat) (amount : ℚ)
    (t1 t2 m1 m2 : Nat) (cfg : FeaturesConfig)
    (hcfg : c.featuresConfig = some cfg) :
    (jsOrDefault cfg.dailyTransactionLimit 10000
        < limitQuerySum db u c.id t1 t2 + amount →
      checkTransactionLimits db (some c) (some u) amount t1 t2 m1 m2 none none
        = .rejectedDaily (jsOrDefault cfg.dailyTransactionLimit 10000)
            (limitQuerySum db u c.id t1 t2)
            (jsOrDefault cfg.dailyTransactionLimit 10000 - limitQuerySum db u c.id t1 t2))
    ∧ (limitQuerySum db u c.id t1 t2 + amount
          ≤ jsOrDefault cfg.dailyTransactionLimit 10000 →
       jsOrDefault cfg.monthlyTransactionLimit 100000
          < limitQuerySum db u c.id m1 m2 + amount →
       checkTransactionLimits db (some c) (some u) amount t1 t2 m1 m2 none none
        = .rejectedMonthly (jsOrDefault cfg.monthlyTransactionLimit 100000)
            (limitQuerySum db u c.id m1 m2)
            (jsOrDefault cfg.monthlyTransactionLimit 100000
              - limitQuerySum db u c.id m1 m2)) := by
  constructor
  · intro h
    simp [checkTransactionLimits, hcfg, h]
  · intro h1 h2
    simp [checkTransactionLimits, hcfg, not_lt.mpr h1, h2]

/-- C4 witness: the spec's scenario — daily limit 100, 80 already used
today, a send of 30 is rejected with limit 100, used 80, remaining 20. -/
theorem C4_witness :
    checkTransactionLimits limitDb (some limitClient) (some 1) 30 0 86400 0 2678400
        none none = .rejectedDaily 100 80 20 := by
  rw [(C4_limitRejection limitDb limitClient 1 30 0 86400 0 2678400 limitCfg rfl).1
    (by rw [limitSum_eval, limitDaily_eval]; norm_num)]
  rw [limitSum_eval, limitDaily_eval]
  norm_num

/-- C1 counterexample: the claim that a terminal status is never changed
fails on the code.  `exDb` holds a `confirmed` transaction owned by user
1; when the chain adapter reports `pending` (e.g. the node no longer has
a receipt), the handler's unconditional status-difference update rewrites
the stored row back to `pending`. -/
theorem C1_counterexample :
    exTx.status = TxStatus.confirmed
    ∧ (getTransactionHandler exDb "0xh" 1 ⟨.pending, 0⟩ 9).1.transactions.map
        Transaction.status = [TxStatus.pending] := by
  exact ⟨rfl, rfl⟩

/-- C1 (amended): the reconciliation handler makes the stored status
track the adapter.  Whenever the `GET /:txHash` lookup finds a row for
the caller, every row carrying that hash afterwards holds exactly the
adapter-reported status — the stored status is overwritten whenever it
differs, terminal or not, and kept only when the adapter agrees. -/
theorem C1_amended_statusFollowsAdapter (db : DB) (txHash : String) (userId : Nat)
    (chainTx : ChainTx) (now : Nat) (row t : Transaction)
    (hnd : (db.transactions.map Transaction.txHash).Nodup)
    (hfind : findUserTx db txHash userId = some row)
    (hmem : t ∈ (getTransactionHandler db txHash userId chainTx now).1.transactions)
    (hhash : t.txHash = txHash) :
    t.status = chainTx.status := by
  simp only [getTransactionHandler, hfind] at hmem
  by_cases hst : chainTx.status = row.status
  · rw [if_neg (not_not_intro hst)] at hmem
    have hrowmem : row ∈ db.transactions := List.mem_of_find?_eq_some hfind
    have hrowp := List.find?_some hfind
    simp only [Bool.and_eq_true, beq_iff_eq] at hrowp
    have ht : t = row :=
      List.inj_on_of_nodup_map hnd hmem hrowmem (by rw [hhash, hrowp.1])
    rw [ht, hst]
  · rw [if_pos hst] at hmem
    rcases List.mem_map.mp hmem with ⟨t0, ht0, rfl⟩
    by_cases h0 : t0.txHash == txHash
    · simp [h0]
    · rw [if_neg (by simpa using h0)] at hhash ⊢
      exact absurd hhash (by simpa using h0)

/-- C1 witness: on the concrete database, after the adapter reports
`failed` for the stored `confirmed` row, the updated row holds `failed`. -/
theorem C1_witness :
    ({ exTx with
        status := .failed
        confirmations := 2
        confirmedAt := none } : Transaction).status = TxStatus.failed :=
  C1_amended_statusFollowsAdapter exDb "0xh" 1 ⟨.failed, 2⟩ 9 exTx
    { exTx with
        status := .failed
        confirmations := 2
        confirmedAt := none }
    (by decide) rfl (by decide) rfl

/-- After `UPDATE wallets SET is_primary = false WHERE user_id = $1` the
user has no primary wallets at all. -/
lemma countPrimaries_clearPrimaries (db : DB) (u : Nat) :
    countPrimaries (clearPrimaries db u) u = 0 := by
  unfold countPrimaries clearPrimaries
  simp only [List.filter_map, List.length_map, List.length_eq_zero]
  apply List.filter_eq_nil_iff.mpr
  intro w _
  by_cases h : w.userId == u <;> simp [Function.comp, h]

/-- With unique wallet ids, at most one row matches a given id. -/
lemma countP_wid_le_one (ws : List Wallet) (wid : Nat)
    (hids : (ws.map Wallet.id).Nodup) :
    ws.countP (fun w => w.id == wid) ≤ 1 := by
  induction ws with
  | nil => simp
  | cons w rest ih =>
    rw [List.map_cons, List.nodup_cons] at hids
    rw [List.countP_cons]
    by_cases hw : w.id = wid
    · have hzero : rest.countP (fun w => w.id == wid) = 0 := by
        apply List.countP_eq_zero.mpr
        intro w' hw'
        simp only [beq_iff_eq]
        intro hEq
        exact hids.1 (hw ▸ hEq ▸ List.mem_map_of_mem Wallet.id hw')
      simp [hzero, hw]
    · have hbeq : (w.id == wid) = false := beq_eq_false_iff_ne.mpr hw
      simpa [hbeq] using ih hids.2

/-- After setting the primary flag on one wallet id over a state where
the user has no primaries, the user has at most one primary (wallet ids
being unique). -/
lemma primary_after_set_le_one (ws : List Wallet) (wid u : Nat)
    (h0 : ∀ w ∈ ws, w.userId = u → w.isPrimary = false)
    (hids : (ws.map Wallet.id).Nodup) :
    ((ws.map (fun w => if w.id == wid then { w with isPrimary := true } else w)).filter
        (fun w => w.userId == u && w.isPrimary)).length ≤ 1 := by
  rw [← List.countP_eq_length_filter, List.countP_map]
  refine le_trans (List.countP_mono_left ?_) (countP_wid_le_one ws wid hids)
  intro w hw hp
  by_cases hid : w.id == wid
  · exact hid
  · exfalso
    simp only [Function.comp] at hp
    rw [if_neg (by simpa using hid)] at hp
    simp only [Bool.and_eq_true, beq_iff_eq] at hp
    exact absurd hp.2 (by simp [h0 w hw hp.1])

/-- C3 counterexample: the claim that no zero-primary state is reachable
fails on the code.  On `exDb` (user 1, wallet 1 primary) a
`setPrimaryWallet(2, 1)` call's trace contains the state after the
clear-all statement, in which user 1 has zero primary wallets. -/
theorem C3_counterexample :
    countPrimaries exDb 1 = 1
    ∧ clearPrimaries exDb 1 ∈ setPrimaryStates exDb 2 1
    ∧ countPrimaries (clearPrimaries exDb 1) 1 = 0 := by
  refine ⟨rfl, by decide, rfl⟩

/-- C3 (amended): setPrimaryWallet never creates multiple primaries — in
every state observable during the call (initial, between the two UPDATE
statements, final) the user has at most one primary wallet, provided
wallet ids are unique and the initial state had at most one; but the
intermediate state can have zero primaries, the two statements not being
wrapped in a transaction. -/
theorem C3_amended_atMostOnePrimary (db : DB) (walletId userId : Nat)
    (hids : (db.wallets.map Wallet.id).Nodup)
    (hstart : countPrimaries db userId ≤ 1)
    (s : DB) (hs : s ∈ setPrimaryStates db walletId userId) :
    countPrimaries s userId ≤ 1 := by
  unfold setPrimaryStates at hs
  by_cases hown : db.wallets.any (fun w => w.id == walletId && w.userId == userId)
  · rw [if_pos hown] at hs
    simp only [List.mem_cons, List.not_mem_nil, or_false] at hs
    rcases hs with rfl | rfl | rfl
    · exact hstart
    · rw [countPrimaries_clearPrimaries]; omega
    · unfold countPrimaries setPrimaryFlag
      apply primary_after_set_le_one
      · intro w hw hu
        rcases List.mem_map.mp hw with ⟨w0, _, rfl⟩
        by_cases h0 : w0.userId == userId
        · simp [h0]
        · rw [if_neg (by simpa using h0)] at hu ⊢
          exact absurd hu (by simpa using h0)
      · have : ((clearPrimaries db userId).wallets.map Wallet.id)
            = db.wallets.map Wallet.id := by
          unfold clearPrimaries
          rw [List.map_map]
          apply List.map_congr_left
          intro w _
          by_cases h : w.userId == userId <;> simp [Function.comp, h]
        rw [this]; exact hids
  · rw [if_neg hown] at hs
    simp only [List.mem_cons, List.not_mem_nil, or_false] at hs
    rw [hs]; exact hstart

/-- C3 witness: the amended bound evaluated at the intermediate state of
the concrete trace. -/
theorem C3_witness : countPrimaries (clearPrimaries exDb 1) 1 ≤ 1 :=
  C3_amended_atMostOnePrimary exDb 2 1 (by decide) (by decide)
    (clearPrimaries exDb 1) (by decide)

/-! ## Helper lemmas for `createWallet` -/

/-- The row `createWallet` inserts (`INSERT INTO wallets ... RETURNING ...`):
primary iff the user's wallet count — over all statuses — was zero. -/
def mkNewWallet (db : DB) (u : Nat) (n : String) (cid : Option Nat)
    (g : GeneratedWallet) (newId : Nat) : Wallet :=
  { id := newId, userId := u, clientId := cid, name := n, address := g.address,
    encryptedPrivateKey := g.encryptedPrivateKey,
    isPrimary := (db.wallets.filter (fun w => w.userId == u)).length == 0,
    balanceUsdc := 0, status := .active }

lemma createWallet_err (db : DB) (u : Nat) (n : String) (cid : Option Nat)
    (g : GeneratedWallet) (newId : Nat) (b : ℚ)
    (hany : db.wallets.any (fun w => w.userId == u && w.name == n) = true) :
    createWallet db u n cid g newId b = ⟨db, .error .duplicateName⟩ := by
  unfold createWallet
  rw [if_pos hany]

lemma createWallet_ok (db : DB) (u : Nat) (n : String) (cid : Option Nat)
    (g : GeneratedWallet) (newId : Nat) (b : ℚ)
    (hany : db.wallets.any (fun w => w.userId == u && w.name == n) = false) :
    createWallet db u n cid g newId b
      = ⟨updateWalletBalance
            ⟨db.wallets ++ [mkNewWallet db u n cid g newId], db.transactions⟩ newId b,
         .ok (mkNewWallet db u n cid g newId)⟩ := by
  unfold createWallet
  rw [if_neg (by simp [hany])]
  rfl

/-- The `updateWalletBalance` row map touches only the balance column. -/
lemma balMap_id (wid : Nat) (b : ℚ) (w : Wallet) :
    (if w.id == wid then { w with balanceUsdc := b } else w).id = w.id := by
  by_cases h : w.id == wid <;> simp [h]

lemma balMap_userId (wid : Nat) (b : ℚ) (w : Wallet) :
    (if w.id == wid then { w with balanceUsdc := b } else w).userId = w.userId := by
  by_cases h : w.id == wid <;> simp [h]

lemma balMap_name (wid : Nat) (b : ℚ) (w : Wallet) :
    (if w.id == wid then { w with balanceUsdc := b } else w).name = w.name := by
  by_cases h : w.id == wid <;> simp [h]

lemma balMap_isPrimary (wid : Nat) (b : ℚ) (w : Wallet) :
    (if w.id == wid then { w with balanceUsdc := b } else w).isPrimary = w.isPrimary := by
  by_cases h : w.id == wid <;> simp [h]

lemma balMap_status (wid : Nat) (b : ℚ) (w : Wallet) :
    (if w.id == wid then { w with balanceUsdc := b } else w).status = w.status := by
  by_cases h : w.id == wid <;> simp [h]

/-- Appending a wallet of user `u` to a table with none of `u`'s wallets
and rewriting one row's balance leaves exactly that new row in the
user-filtered view. -/
lemma filter_user_balMap_append (L : List Wallet) (W : Wallet) (u other : Nat) (b : ℚ)
    (hL : ∀ w ∈ L, (w.userId == u) = false) (hW : (W.userId == u) = true) :
    ((L ++ [W]).map (fun w => if w.id == other then { w with balanceUsdc := b } else w)).filter
        (fun w => w.userId == u)
      = [if W.id == other then { W with balanceUsdc := b } else W] := by
  rw [List.filter_map]
  have hcong : List.filter ((fun w => w.userId == u) ∘
      (fun w => if w.id == other then { w with balanceUsdc := b } else w)) (L ++ [W])
      = List.filter (fun w => w.userId == u) (L ++ [W]) := by
    apply List.filter_congr
    intro w _
    by_cases h : w.id = other <;> simp [h]
  rw [hcong, List.filter_append]
  rw [show List.filter (fun w => w.userId == u) L = [] from
    List.filter_eq_nil_iff.mpr (fun w hw => by simp [hL w hw])]
  rw [show List.filter (fun w => w.userId == u) [W] = [W] by simp [hW]]
  simp

/-- Appending a row with a different id and rewriting the balance of yet
another id leaves the filtered view of a given id unchanged. -/
lemma filter_id_balMap_append (L : List Wallet) (W : Wallet) (wid other : Nat) (b : ℚ)
    (hW : (W.id == wid) = false) (hno : wid ≠ other) :
    ((L ++ [W]).map (fun w => if w.id == other then { w with balanceUsdc := b } else w)).filter
        (fun w => w.id == wid)
      = L.filter (fun w => w.id == wid) := by
  rw [List.filter_map]
  have hcong : List.filter ((fun w => w.id == wid) ∘
      (fun w => if w.id == other then { w with balanceUsdc := b } else w)) (L ++ [W])
      = List.filter (fun w => w.id == wid) (L ++ [W]) := by
    apply List.filter_congr
    intro w _
    by_cases h : w.id = other <;> simp [h]
  rw [hcong, List.filter_append]
  rw [show List.filter (fun w => w.id == wid) [W] = [] by simp [hW]]
  rw [List.append_nil]
  have hfix : ∀ w ∈ L.filter (fun w => w.id == wid),
      (if w.id == other then { w with balanceUsdc := b } else w) = w := by
    intro w hw
    have hq : w.id = wid := by simpa using (List.mem_filter.mp hw).2
    rw [if_neg (by simp [hq, hno])]
  rw [List.map_congr_left hfix]
  exact List.map_id' _

/-- C7: the first wallet is primary, later ones are not.  For a user with
no wallets, the wallet created first is marked primary; creating a second
wallet (fresh name, fresh row id) yields a non-primary wallet and leaves
every column of the first wallet's row unchanged. -/
theorem C7_firstWalletPrimary (db : DB) (u : Nat) (n1 n2 : String)
    (cid1 cid2 : Option Nat) (g1 g2 : GeneratedWallet) (id1 id2 : Nat) (b1 b2 : ℚ)
    (hu : db.wallets.filter (fun w => w.userId == u) = [])
    (hn : n1 ≠ n2) (hid : id1 ≠ id2) :
    ((createWallet db u n1 cid1 g1 id1 b1).result.toOption.map Wallet.isPrimary
      = some true)
    ∧ ((createWallet (createWallet db u n1 cid1 g1 id1 b1).db u n2 cid2 g2 id2
        b2).result.toOption.map Wallet.isPrimary = some false)
    ∧ ((createWallet (createWallet db u n1 cid1 g1 id1 b1).db u n2 cid2 g2 id2
        b2).db.wallets.filter (fun w => w.id == id1)
      = (createWallet db u n1 cid1 g1 id1 b1).db.wallets.filter
          (fun w => w.id == id1)) := by
  have hmemu : ∀ w ∈ db.wallets, (w.userId == u) = false := by
    intro w hw
    have := List.filter_eq_nil_iff.mp hu w hw
    simpa using this
  have hany1 : db.wallets.any (fun w => w.userId == u && w.name == n1) = false :=
    List.any_eq_false.mpr (fun w hw => by simp [hmemu w hw])
  rw [createWallet_ok db u n1 cid1 g1 id1 b1 hany1]
  simp only [updateWalletBalance]
  have hany2 : ((db.wallets ++ [mkNewWallet db u n1 cid1 g1 id1]).map
      (fun w => if w.id == id1 then { w with balanceUsdc := b1 } else w)).any
      (fun w => w.userId == u && w.name == n2) = false := by
    rw [List.any_map]
    apply List.any_eq_false.mpr
    intro w hw
    rcases List.mem_append.mp hw with hw' | hw'
    · have hne : w.userId ≠ u := by simpa using hmemu w hw'
      by_cases h : w.id = id1 <;> simp [h, hne]
    · rw [List.mem_singleton.mp hw']
      simp [mkNewWallet, hn]
  rw [createWallet_ok _ u n2 cid2 g2 id2 b2 hany2]
  simp only [updateWalletBalance]
  refine ⟨by simp [mkNewWallet, hu, Except.toOption], ?_, ?_⟩
  · -- the second wallet sees a nonzero count and is not primary
    have hflt := filter_user_balMap_append db.wallets (mkNewWallet db u n1 cid1 g1 id1)
      u id1 b1 hmemu (by simp [mkNewWallet])
    simp [mkNewWallet, hflt, Except.toOption]
  · -- the first wallet's row survives the second insert and balance write
    apply filter_id_balMap_append
    · simp [mkNewWallet, beq_eq_false_iff_ne.mpr (Ne.symm hid)]
    · exact hid

/-- C7 witness: the scenario evaluated for a user starting with no
wallets — W1 is created primary, W2 is created non-primary and W1's row
is untouched. -/
theorem C7_witness :
    ((createWallet ⟨[], []⟩ 1 "First" none ⟨"0xd", "kd"⟩ 10 5).result.toOption.map
        Wallet.isPrimary = some true)
    ∧ ((createWallet (createWallet ⟨[], []⟩ 1 "First" none ⟨"0xd", "kd"⟩ 10 5).db 1
        "Second" none ⟨"0xe", "ke"⟩ 11 6).result.toOption.map Wallet.isPrimary
        = some false)
    ∧ ((createWallet (createWallet ⟨[], []⟩ 1 "First" none ⟨"0xd", "kd"⟩ 10 5).db 1
        "Second" none ⟨"0xe", "ke"⟩ 11 6).db.wallets.filter (fun w => w.id == 10)
      = (createWallet ⟨[], []⟩ 1 "First" none ⟨"0xd", "kd"⟩ 10 5).db.wallets.filter
          (fun w => w.id == 10)) :=
  C7_firstWalletPrimary ⟨[], []⟩ 1 "First" "Second" none none ⟨"0xd", "kd"⟩
    ⟨"0xe", "ke"⟩ 10 11 5 6 rfl (by decide) (by decide)

/-- The spec's wallet-name uniqueness invariant: distinct non-deleted
rows never share an `(owner, name)` pair. -/
def walletNameInvariant (db : DB) : Prop :=
  db.wallets.Pairwise (fun w1 w2 =>
    w1.status ≠ .deleted → w2.status ≠ .deleted →
      (w1.userId, w1.name) ≠ (w2.userId, w2.name))

/-- C8: wallet-name uniqueness.  `createWallet` rejects exactly when some
existing row of the user — of any status, soft-deleted included — already
carries the requested name, and it preserves the invariant that distinct
non-deleted wallets have distinct `(owner, name)` pairs. -/
theorem C8_nameUniqueness (db : DB) (u : Nat) (n : String) (cid : Option Nat)
    (g : GeneratedWallet) (newId : Nat) (bal : ℚ)
    (hinv : walletNameInvariant db) :
    ((createWallet db u n cid g newId bal).result = .error .duplicateName
       ↔ ∃ w ∈ db.wallets, w.userId = u ∧ w.name = n)
    ∧ walletNameInvariant (createWallet db u n cid g newId bal).db := by
  by_cases hany : db.wallets.any (fun w => w.userId == u && w.name == n)
  · rw [createWallet_err db u n cid g newId bal hany]
    refine ⟨⟨fun _ => ?_, fun _ => rfl⟩, hinv⟩
    rcases List.any_eq_true.mp hany with ⟨w, hw, hp⟩
    simp only [Bool.and_eq_true, beq_iff_eq] at hp
    exact ⟨w, hw, hp.1, hp.2⟩
  · have hany' : db.wallets.any (fun w => w.userId == u && w.name == n) = false :=
      Bool.eq_false_iff.mpr hany
    rw [createWallet_ok db u n cid g newId bal hany']
    constructor
    · constructor
      · intro h
        simp at h
      · intro hex
        rcases hex with ⟨w, hw, hu', hn'⟩
        have hnp := List.any_eq_false.mp hany' w hw
        simp only [Bool.and_eq_true, beq_iff_eq, not_and] at hnp
        exact (hnp hu' hn').elim
    · unfold walletNameInvariant updateWalletBalance
      rw [List.pairwise_map]
      apply List.pairwise_append.mpr
      refine ⟨?_, by simp, ?_⟩
      · refine List.Pairwise.imp ?_ hinv
        intro a c hac h1 h2 heq
        rw [balMap_status] at h1
        rw [balMap_status] at h2
        rw [balMap_userId, balMap_name, balMap_userId, balMap_name] at heq
        exact hac h1 h2 heq
      · intro a ha w2 hb
        rw [List.mem_singleton.mp hb]
        intro _ _ heq
        rw [balMap_userId, balMap_name, balMap_userId, balMap_name] at heq
        have hnp := List.any_eq_false.mp hany' a ha
        simp only [Bool.and_eq_true, beq_iff_eq, not_and] at hnp
        rw [Prod.mk.injEq] at heq
        simp only [mkNewWallet] at heq
        exact hnp heq.1 heq.2

/-- C8 witness: the invariant holds after creating a fresh-named wallet
on the concrete two-wallet database. -/
theorem C8_witness :
    walletNameInvariant (createWallet exDb 1 "Fresh" none ⟨"0xz", "kz"⟩ 9 0).db :=
  (C8_nameUniqueness exDb 1 "Fresh" none ⟨"0xz", "kz"⟩ 9 0
    (by unfold walletNameInvariant; decide)).2

end UsdcWallet
